import Mathlib

/-!
# server.js: request gateway and store bootstrap

A shallow embedding of `server.js`.

* The request side: the `cors` origin callback, the ordered list of Express
  layers registered on `app`, and the four-argument error handler.
* The startup side: `sequelize.sync()`, `Product.count()`, the four
  timestamped `bulkCreate` calls and `app.listen`.

Express, `cors`, `express.json`, `express.static`, the mounted routers, the
Sequelize models and the default datasets are imported by `server.js` and are
not part of it.  The routers, the body parser, the static file server, the
validator comparison behind `req.fresh` and the datasets are parameters; the
dispatch rules of Express 4 and of `cors` that `server.js` relies on are
written out below.  Response headers are not modelled.
-/

namespace Server

/-! ## HTTP values -/

/-- An error value travelling through `next(err)`.  Only `err.message` is read
by `server.js`; `none` stands for a value without a `message`. -/
structure Err where
  message : Option String
deriving DecidableEq, Repr

/-- A response body: nothing, a flat JSON object with string values, or any
other payload (kept as text). -/
inductive Body where
  | empty
  | json (obj : List (String × String))
  | raw (text : String)
deriving DecidableEq, Repr

/-- One response written to the client. -/
structure Wire where
  status : Nat
  body : Body
deriving DecidableEq, Repr

/-- The Express `res` object: the pending status code and what was sent. -/
structure Res where
  statusCode : Nat
  sent : List Wire
deriving DecidableEq, Repr

/-- A new `res`: Node starts every response with `statusCode = 200`. -/
def Res.fresh : Res := ⟨200, []⟩

/-- The call `res.status(code)`. -/
def Res.status (res : Res) (code : Nat) : Res :=
  { res with statusCode := code }

/-- Writing a body with the pending status code. -/
def Res.send (res : Res) (b : Body) : Res :=
  { res with sent := res.sent ++ [⟨res.statusCode, b⟩] }

/-- The call `res.json(obj)`. -/
def Res.json (res : Res) (obj : List (String × String)) : Res :=
  res.send (Body.json obj)

/-- The call `res.end()` with no data. -/
def Res.endEmpty (res : Res) : Res :=
  res.send Body.empty

/-- An inbound request: `req.method`, `req.path`, `req.headers.origin`
(`none` when the header is absent), the raw body, and the conditional headers
`If-None-Match` and `If-Modified-Since` (`none` when absent). -/
structure Req where
  method : String
  path : String
  origin : Option String
  body : String
  ifNoneMatch : Option String
  ifModifiedSince : Option String
deriving DecidableEq, Repr

/-! ## CORS origin callback (server.js lines 32-44) -/

/-- The constant `allowedOrigins`. -/
def allowedOrigins : List String :=
  ["http://localhost:5173", "https://devashishyadav20.github.io"]

/-- JavaScript `!origin` for a header value: true for `undefined` and for the
empty string. -/
def notOrigin (origin : Option String) : Bool :=
  match origin with
  | none => true
  | some o => o == ""

/-- JavaScript `allowed.includes(origin)`. -/
def includes (allowed : List String) (origin : Option String) : Bool :=
  match origin with
  | none => false
  | some o => allowed.contains o

/-- The `origin: (origin, cb) => ...` option: `.ok true` is `cb(null, true)`,
`.error e` is `cb(e)`. -/
def originCallback (allowed : List String) (origin : Option String) : Except Err Bool :=
  if notOrigin origin then Except.ok true
  else if includes allowed origin then Except.ok true
  else Except.error ⟨some "Not allowed by CORS"⟩

/-! ## Express dispatch -/

/-- What a layer does with the request: `next()`, `next(err)` with a value
Express takes for an error, leaving the router with `next('router')`, or
ending the response. -/
inductive Flow where
  | next (res : Res)
  | nextErr (err : Err) (res : Res)
  | exit (res : Res)
  | ended (res : Res)

/-- The layers `server.js` registers, in registration order. -/
inductive Stage where
  | corsGate
  | preflight
  | jsonBody
  | health
  | images
  | products
  | deliveryOptions
  | cartItems
  | orders
  | reset
  | paymentSummary
  | errorHandler
deriving DecidableEq, Repr

/-- A registered layer: ordinary middleware or route (with its match
predicate), or a four-argument error handler. -/
inductive Layer where
  | normal (stage : Stage) (applies : Req → Bool) (run : Req → Res → Flow)
  | onError (stage : Stage) (run : Err → Req → Res → Flow)

/-- The result of serving one request: the final `res` and the layers whose
handler ran, in order. -/
structure Served where
  res : Res
  reached : List Stage

/-- The built-in final handler of Express, reached when the stack is exhausted
or left: 404 without a pending error, 500 with one; when a response has been
sent already it writes nothing. -/
def finalHandler (pending : Option Err) (req : Req) (res : Res) : Res :=
  if res.sent.isEmpty then
    match pending with
    | none => (res.status 404).send (Body.raw ("Cannot " ++ req.method ++ " " ++ req.path))
    | some _ => (res.status 500).send (Body.raw "Internal Server Error")
  else res

/-- The router loop of Express.  Without a pending error the ordinary layers that
match run in order and error handlers are skipped; with a pending error the
ordinary layers are skipped and the next error handler runs; `next('router')`
leaves the stack for the final handler. -/
def dispatch : List Layer → Option Err → Req → Res → List Stage → Served
  | [], pending, req, res, seen => ⟨finalHandler pending req res, seen⟩
  | Layer.normal stage applies run :: rest, none, req, res, seen =>
    if applies req then
      match run req res with
      | Flow.next res1 => dispatch rest none req res1 (seen ++ [stage])
      | Flow.nextErr err res1 => dispatch rest (some err) req res1 (seen ++ [stage])
      | Flow.exit res1 => ⟨finalHandler none req res1, seen ++ [stage]⟩
      | Flow.ended res1 => ⟨res1, seen ++ [stage]⟩
    else dispatch rest none req res seen
  | Layer.normal _ _ _ :: rest, some err, req, res, seen =>
    dispatch rest (some err) req res seen
  | Layer.onError _ _ :: rest, none, req, res, seen =>
    dispatch rest none req res seen
  | Layer.onError stage run :: rest, some err, req, res, seen =>
    match run err req res with
    | Flow.next res1 => dispatch rest none req res1 (seen ++ [stage])
    | Flow.nextErr err1 res1 => dispatch rest (some err1) req res1 (seen ++ [stage])
    | Flow.exit res1 => ⟨finalHandler none req res1, seen ++ [stage]⟩
    | Flow.ended res1 => ⟨res1, seen ++ [stage]⟩

/-- The stage a layer was registered as. -/
def Layer.stage (layer : Layer) : Stage :=
  match layer with
  | Layer.normal stage _ _ => stage
  | Layer.onError stage _ => stage

/-- Whether a layer is ordinary middleware or a route, not an error handler. -/
def Layer.isNormal (layer : Layer) : Bool :=
  match layer with
  | Layer.normal _ _ _ => true
  | Layer.onError _ _ => false

/-- An ordinary layer that calls `next()` on `req` has not written to `res`. -/
def Layer.handsOn (layer : Layer) (req : Req) (res : Res) : Prop :=
  match layer with
  | Layer.normal _ _ run => ∀ res1, run req res = Flow.next res1 → res1 = res
  | Layer.onError _ _ => True

/-- The middleware returned by `cors(options)` for an `origin` function
option: an error from the callback goes to `next(err)`; a falsy answer skips
CORS with `next()`; otherwise a preflight (`OPTIONS`) is ended with status 204
and no body, and any other method continues with `next()`. -/
def corsMiddleware (origin : Option String → Except Err Bool) (req : Req) (res : Res) : Flow :=
  match origin req.origin with
  | Except.error err => Flow.nextErr err res
  | Except.ok false => Flow.next res
  | Except.ok true =>
    if req.method = "OPTIONS" then Flow.ended ((res.status 204).endEmpty)
    else Flow.next res

/-- The path test of `app.use(mount, ...)`: the mount path itself or anything
below it. -/
def mounted (mount : String) (req : Req) : Bool :=
  req.path == mount || (mount ++ "/").toList.isPrefixOf req.path.toList

/-! ## Store and external collaborators -/

/-- A record template of a default dataset: field name and rendered value. -/
abbrev Fields := List (String × String)

/-- A stored row: the template fields with the two timestamp columns, in
milliseconds since the epoch. -/
structure Row where
  fields : Fields
  createdAt : Nat
  updatedAt : Nat
deriving DecidableEq, Repr

/-- The four collections of the store. -/
structure Store where
  products : List Row
  deliveryOptions : List Row
  cartItems : List Row
  orders : List Row
deriving DecidableEq, Repr

/-- A value a handler throws or hands to `next(value)`: a falsy value, the
string `route`, the string `router`, or any other value, which Express takes
for an error (`err.message` is all `server.js` reads of it). -/
inductive Thrown where
  | falsy
  | route
  | router
  | error (err : Err)
deriving DecidableEq, Repr

/-- What Express does with a raised value at the level of `app`: a falsy value
and `route` are no error and the stack goes on, `router` leaves the stack, any
other value becomes the pending error. -/
def Thrown.flow (value : Thrown) (res : Res) : Flow :=
  match value with
  | Thrown.falsy => Flow.next res
  | Thrown.route => Flow.next res
  | Thrown.router => Flow.exit res
  | Thrown.error err => Flow.nextErr err res

/-- What an imported handler does with a request: it responds, it raises a
value, it responds and then raises an error, or it passes the request on. -/
inductive Handled where
  | respond (status : Nat) (body : Body)
  | raise (value : Thrown)
  | respondThenRaise (status : Nat) (body : Body) (err : Err)
  | pass

/-- The `Flow` of an imported handler. -/
def Handled.flow (h : Handled) (res : Res) : Flow :=
  match h with
  | Handled.respond status body => Flow.ended ((res.status status).send body)
  | Handled.raise value => value.flow res
  | Handled.respondThenRaise status body err => Flow.nextErr err ((res.status status).send body)
  | Handled.pass => Flow.next res

/-- The imported pieces `server.js` mounts: `express.json()` (the error it
raises on a request, if any), `express.static` for the images, and the six
routers, which read the store; and `validates`, the comparison the `fresh`
package makes for a conditional request between its headers (`If-None-Match`,
`If-Modified-Since`, `Cache-Control`) and the validators Express attaches to
the body about to be sent. -/
structure Externals where
  validates : Req → Body → Bool
  jsonParser : Req → Option Err
  staticImages : Req → Handled
  productRoutes : Store → Req → Handled
  deliveryOptionRoutes : Store → Req → Handled
  cartItemRoutes : Store → Req → Handled
  orderRoutes : Store → Req → Handled
  resetRoutes : Store → Req → Handled
  paymentSummaryRoutes : Store → Req → Handled

/-! ## The application (server.js lines 37-79) -/

/-- JavaScript `message || fallback` on an optional string. -/
def orElse (message : Option String) (fallback : String) : String :=
  match message with
  | none => fallback
  | some m => if m == "" then fallback else m

/-- The error handler `(err, req, res, next) => ...`; its `console.error` line
writes to the log only and is left out.  Its statuses 403 and 500 are outside
the range in which `req.fresh` can hold, so its `res.json` is the plain write. -/
def errorHandler (err : Err) (_req : Req) (res : Res) : Res :=
  let status := if err.message = some "Not allowed by CORS" then 403 else 500
  (res.status status).json [("error", orElse err.message "Something went wrong!")]

/-- JavaScript `!value` for a header value: true for `undefined` and for the
empty string. -/
def absent (value : Option String) : Bool :=
  match value with
  | none => true
  | some v => v == ""

/-- Whether the request is conditional: it carries `If-None-Match` or
`If-Modified-Since`. -/
def Req.conditional (req : Req) : Bool :=
  !(absent req.ifNoneMatch && absent req.ifModifiedSince)

/-- The getter `req.fresh` of Express 4 when a body is about to be sent with
the given status: only `GET` and `HEAD`, only a 2xx or 304 status, never an
unconditional request, and then what the validator comparison says. -/
def Req.fresh (req : Req) (ext : Externals) (status : Nat) (body : Body) : Bool :=
  (req.method == "GET" || req.method == "HEAD") &&
  ((decide (200 ≤ status) && decide (status < 300)) || status == 304) &&
  req.conditional && ext.validates req body

/-- The call `res.json(obj)` answering `req`: Express sends through `res.send`,
which answers a fresh request with status 304 and no body. -/
def Res.jsonTo (res : Res) (ext : Externals) (req : Req) (obj : List (String × String)) : Res :=
  if req.fresh ext res.statusCode (Body.json obj) then (res.status 304).send Body.empty
  else res.json obj

/-- The handler of the `GET /api/health` route, `res.json` of `status: ok`. -/
def healthHandler (ext : Externals) (req : Req) (res : Res) : Res :=
  res.jsonTo ext req [("status", "ok")]

/-- The layers of `app` in registration order, for a given allow-list.  In the
last layer `res.json` throws when a response has been sent already; Express
catches what the error handler throws and passes it on as the pending error. -/
def app (allowed : List String) (ext : Externals) (store : Store) : List Layer :=
  [ Layer.normal Stage.corsGate (fun _ => true) (corsMiddleware (originCallback allowed)),
    Layer.normal Stage.preflight (fun req => req.method == "OPTIONS")
      (corsMiddleware (fun _ => Except.ok true)),
    Layer.normal Stage.jsonBody (fun _ => true)
      (fun req res =>
        match ext.jsonParser req with
        | some err => Flow.nextErr err res
        | none => Flow.next res),
    Layer.normal Stage.health (fun req => req.method == "GET" && req.path == "/api/health")
      (fun req res => Flow.ended (healthHandler ext req res)),
    Layer.normal Stage.images (mounted "/images") (fun req res => (ext.staticImages req).flow res),
    Layer.normal Stage.products (mounted "/api/products")
      (fun req res => (ext.productRoutes store req).flow res),
    Layer.normal Stage.deliveryOptions (mounted "/api/delivery-options")
      (fun req res => (ext.deliveryOptionRoutes store req).flow res),
    Layer.normal Stage.cartItems (mounted "/api/cart-items")
      (fun req res => (ext.cartItemRoutes store req).flow res),
    Layer.normal Stage.orders (mounted "/api/orders")
      (fun req res => (ext.orderRoutes store req).flow res),
    Layer.normal Stage.reset (mounted "/api/reset")
      (fun req res => (ext.resetRoutes store req).flow res),
    Layer.normal Stage.paymentSummary (mounted "/api/payment-summary")
      (fun req res => (ext.paymentSummaryRoutes store req).flow res),
    Layer.onError Stage.errorHandler
      (fun err req res =>
        if res.sent.isEmpty then Flow.ended (errorHandler err req res)
        else Flow.nextErr ⟨some "Cannot set headers after they are sent to the client"⟩ res) ]

/-- Serving one request on a new response object. -/
def serve (allowed : List String) (ext : Externals) (store : Store) (req : Req) : Served :=
  dispatch (app allowed ext store) none req Res.fresh []

/-- The resource-router layers. -/
def Stage.isRouter (s : Stage) : Bool :=
  match s with
  | Stage.products | Stage.deliveryOptions | Stage.cartItems
  | Stage.orders | Stage.reset | Stage.paymentSummary => true
  | _ => false

/-- The router mounted as a stage, for the six router stages. -/
def Externals.routerAt (ext : Externals) (stage : Stage) : Option (Store → Req → Handled) :=
  match stage with
  | Stage.products => some ext.productRoutes
  | Stage.deliveryOptions => some ext.deliveryOptionRoutes
  | Stage.cartItems => some ext.cartItemRoutes
  | Stage.orders => some ext.orderRoutes
  | Stage.reset => some ext.resetRoutes
  | Stage.paymentSummary => some ext.paymentSummaryRoutes
  | _ => none

/-- Externals that never fail: every imported handler passes, and no
conditional request is found fresh. -/
def quietExternals : Externals :=
  ⟨fun _ _ => false, fun _ => none, fun _ => Handled.pass, fun _ _ => Handled.pass,
   fun _ _ => Handled.pass, fun _ _ => Handled.pass, fun _ _ => Handled.pass,
   fun _ _ => Handled.pass, fun _ _ => Handled.pass⟩

/-- Externals whose product router raises an error carrying the rejection
message of the origin callback. -/
def mimicExternals : Externals :=
  { quietExternals with
    productRoutes := fun _ _ => Handled.raise (Thrown.error ⟨some "Not allowed by CORS"⟩) }

/-- Externals whose product router raises the string `router`. -/
def signalExternals : Externals :=
  { quietExternals with productRoutes := fun _ _ => Handled.raise Thrown.router }

/-- Externals whose product router answers 200 and then raises an error. -/
def lateExternals : Externals :=
  { quietExternals with
    productRoutes := fun _ _ =>
      Handled.respondThenRaise 200 (Body.json [("id", "p1")]) ⟨some "boom"⟩ }

/-- Externals whose orders router raises an error with message `boom`. -/
def boomExternals : Externals :=
  { quietExternals with
    orderRoutes := fun _ _ => Handled.raise (Thrown.error ⟨some "boom"⟩) }

/-- Externals whose validator comparison finds `If-None-Match: *` fresh. -/
def cachingExternals : Externals :=
  { quietExternals with validates := fun req _ => req.ifNoneMatch == some "*" }

/-- Externals whose body parser rejects the unterminated JSON body `[`. -/
def strictExternals : Externals :=
  { quietExternals with
    jsonParser := fun req =>
      if req.body == "[" then some ⟨some "Unexpected end of JSON input"⟩ else none }

/-- The store with no rows. -/
def emptyStore : Store := ⟨[], [], [], []⟩

/-! ## Startup: sync, seed check, seeding, listen (server.js lines 82-123) -/

/-- The steps of the startup sequence. -/
inductive Step where
  | sync
  | count
  | bulkProducts
  | bulkDeliveryOptions
  | bulkCartItems
  | bulkOrders
  | listen
deriving DecidableEq, Repr

/-- The imported default datasets. -/
structure Defaults where
  defaultProducts : List Fields
  defaultDeliveryOptions : List Fields
  defaultCart : List Fields
  defaultOrders : List Fields

/-- Which store operations reject in one run: `fails step` says that `step`,
when the run attempts it, throws. -/
structure Faults where
  fails : Step → Bool

/-- The process during startup: the store, the steps attempted so far in
order, and whether the HTTP listener has been started. -/
structure Sys where
  store : Store
  trace : List Step
  listening : Bool
deriving DecidableEq, Repr

/-- Top-level `await` code as a state-passing computation: a step either
yields a value or rejects, and in both cases hands on the state reached. -/
def Startup (α : Type) : Type := Sys → Except Step α × Sys

/-- Sequencing of awaited steps: a rejection ends module evaluation, so the
steps after it do not run. -/
instance : Monad Startup where
  pure a := fun sys => (Except.ok a, sys)
  bind m f := fun sys =>
    match m sys with
    | (Except.ok a, sys1) => f a sys1
    | (Except.error step, sys1) => (Except.error step, sys1)

/-- Record that a step is attempted and reject if it fails in this run. -/
def attempt (faults : Faults) (step : Step) : Startup Unit := fun sys =>
  if faults.fails step then (Except.error step, { sys with trace := sys.trace ++ [step] })
  else (Except.ok (), { sys with trace := sys.trace ++ [step] })

/-- A change of the store. -/
def update (change : Store → Store) : Startup Unit := fun sys =>
  (Except.ok (), { sys with store := change sys.store })

/-- Modelled from the spec: `sequelize.sync()` of `./models/index.js` applies
the schema definitions with create-if-absent semantics and does not touch
existing rows; it may reject. -/
def sync (faults : Faults) : Startup Unit :=
  attempt faults Step.sync

/-- Modelled from the spec: `Product.count()` of `./models/Product.js` returns
the number of Product rows; it may reject. -/
def Product.count (faults : Faults) : Startup Nat := do
  attempt faults Step.count
  fun sys => (Except.ok sys.store.products.length, sys)

/-- Modelled from the spec: `Product.bulkCreate(rows)` inserts all the rows as
one atomic operation, or rejects and inserts none. -/
def Product.bulkCreate (faults : Faults) (rows : List Row) : Startup Unit := do
  attempt faults Step.bulkProducts
  update fun store => { store with products := store.products ++ rows }

/-- Modelled from the spec: `DeliveryOption.bulkCreate(rows)` inserts all the
rows as one atomic operation, or rejects and inserts none. -/
def DeliveryOption.bulkCreate (faults : Faults) (rows : List Row) : Startup Unit := do
  attempt faults Step.bulkDeliveryOptions
  update fun store => { store with deliveryOptions := store.deliveryOptions ++ rows }

/-- Modelled from the spec: `CartItem.bulkCreate(rows)` inserts all the rows as
one atomic operation, or rejects and inserts none. -/
def CartItem.bulkCreate (faults : Faults) (rows : List Row) : Startup Unit := do
  attempt faults Step.bulkCartItems
  update fun store => { store with cartItems := store.cartItems ++ rows }

/-- Modelled from the spec: `Order.bulkCreate(rows)` inserts all the rows as
one atomic operation, or rejects and inserts none. -/
def Order.bulkCreate (faults : Faults) (rows : List Row) : Startup Unit := do
  attempt faults Step.bulkOrders
  update fun store => { store with orders := store.orders ++ rows }

/-- The call `app.listen(PORT, ...)`. -/
def listen : Startup Unit := fun sys =>
  (Except.ok (), { sys with trace := sys.trace ++ [Step.listen], listening := true })

/-- The array `defaultProducts.map((p, i) => ...)`: the spread of `p` with
`createdAt` and `updatedAt` set to `new Date(timestamp + i)`. -/
def productsWithTimestamps (timestamp : Nat) (defaultProducts : List Fields) : List Row :=
  defaultProducts.mapIdx fun i p => ⟨p, timestamp + i, timestamp + i⟩

/-- The array `defaultDeliveryOptions.map((o, i) => ...)`. -/
def deliveryOptionsWithTimestamps (timestamp : Nat) (defaultDeliveryOptions : List Fields) :
    List Row :=
  defaultDeliveryOptions.mapIdx fun i o => ⟨o, timestamp + i, timestamp + i⟩

/-- The array `defaultCart.map((c, i) => ...)`. -/
def cartItemsWithTimestamps (timestamp : Nat) (defaultCart : List Fields) : List Row :=
  defaultCart.mapIdx fun i c => ⟨c, timestamp + i, timestamp + i⟩

/-- The array `defaultOrders.map((o, i) => ...)`. -/
def ordersWithTimestamps (timestamp : Nat) (defaultOrders : List Fields) : List Row :=
  defaultOrders.mapIdx fun i o => ⟨o, timestamp + i, timestamp + i⟩

/-- The startup block of `server.js`; `now` is the value `Date.now()` returns. -/
def startup (faults : Faults) (data : Defaults) (now : Nat) : Startup Unit := do
  sync faults
  let productCount ← Product.count faults
  if productCount == 0 then
    let timestamp := now
    Product.bulkCreate faults (productsWithTimestamps timestamp data.defaultProducts)
    DeliveryOption.bulkCreate faults
      (deliveryOptionsWithTimestamps timestamp data.defaultDeliveryOptions)
    CartItem.bulkCreate faults (cartItemsWithTimestamps timestamp data.defaultCart)
    Order.bulkCreate faults (ordersWithTimestamps timestamp data.defaultOrders)
  listen

/-- One process start on `store`: the failing step (if any) and the state the
process is left in. -/
def boot (faults : Faults) (data : Defaults) (now : Nat) (store : Store) : Except Step Unit × Sys :=
  startup faults data now ⟨store, [], false⟩

/-- The store left behind by a process start. -/
def restart (data : Defaults) (store : Store) (run : Faults × Nat) : Store :=
  (boot run.1 data run.2 store).2.store

/-- The store after a sequence of process starts, each on the store left by the
previous one. -/
def restarts (data : Defaults) (store : Store) (runs : List (Faults × Nat)) : Store :=
  runs.foldl (restart data) store

/-- The steps before `listen` on the path the startup block takes: the two
checks, and the four bulk inserts in order when seeding is due. -/
def sequence (seeding : Bool) : List Step :=
  if seeding then
    [Step.sync, Step.count, Step.bulkProducts, Step.bulkDeliveryOptions, Step.bulkCartItems,
      Step.bulkOrders]
  else [Step.sync, Step.count]

/-- The timestamps `base + 0, base + 1, ...` are attached to the entries of
`dataset` in order: same length, entry `i` carries `base + i` in both columns,
and the `createdAt` values increase strictly and are pairwise distinct. -/
def Stamped (base : Nat) (dataset : List Fields) (rows : List Row) : Prop :=
  rows.length = dataset.length ∧
  (∀ i (h : i < dataset.length), rows[i]? = some ⟨dataset[i], base + i, base + i⟩) ∧
  List.Pairwise (fun a b => a < b) (rows.map Row.createdAt) ∧
  (rows.map Row.createdAt).Nodup

/-- A store whose Product collection is empty while one DeliveryOption row is
present. -/
def strayStore : Store := ⟨[], [⟨[("id", "9")], 5, 5⟩], [], []⟩

/-- A store holding one Product row and nothing else. -/
def oneProductStore : Store := ⟨[⟨[("id", "p0")], 7, 7⟩], [], [], []⟩

/-- No operation rejects. -/
def noFaults : Faults := ⟨fun _ => false⟩

/-- Exactly the given step rejects. -/
def failAt (step : Step) : Faults := ⟨fun s => s == step⟩

/-- A small set of default datasets: two products, one delivery option, one
cart item, one order. -/
def sampleDefaults : Defaults :=
  ⟨[[("id", "p1")], [("id", "p2")]], [[("id", "1")]], [[("productId", "p1")]], [[("id", "o1")]]⟩

end Server

namespace Server

/-! ## Startup lemmas -/

/-- The startup block, case by case. -/
theorem boot_eq (faults : Faults) (data : Defaults) (now : Nat) (s : Store) :
    boot faults data now s =
      if faults.fails Step.sync then (Except.error Step.sync, ⟨s, [Step.sync], false⟩)
      else if faults.fails Step.count then
        (Except.error Step.count, ⟨s, [Step.sync, Step.count], false⟩)
      else if s.products.length = 0 then
        if faults.fails Step.bulkProducts then
          (Except.error Step.bulkProducts, ⟨s, [Step.sync, Step.count, Step.bulkProducts], false⟩)
        else if faults.fails Step.bulkDeliveryOptions then
          (Except.error Step.bulkDeliveryOptions,
            ⟨{ s with products := s.products ++ productsWithTimestamps now data.defaultProducts },
             [Step.sync, Step.count, Step.bulkProducts, Step.bulkDeliveryOptions], false⟩)
        else if faults.fails Step.bulkCartItems then
          (Except.error Step.bulkCartItems,
            ⟨{ s with
                products := s.products ++ productsWithTimestamps now data.defaultProducts,
                deliveryOptions := s.deliveryOptions ++
                  deliveryOptionsWithTimestamps now data.defaultDeliveryOptions },
             [Step.sync, Step.count, Step.bulkProducts, Step.bulkDeliveryOptions,
               Step.bulkCartItems], false⟩)
        else if faults.fails Step.bulkOrders then
          (Except.error Step.bulkOrders,
            ⟨{ s with
                products := s.products ++ productsWithTimestamps now data.defaultProducts,
                deliveryOptions := s.deliveryOptions ++
                  deliveryOptionsWithTimestamps now data.defaultDeliveryOptions,
                cartItems := s.cartItems ++ cartItemsWithTimestamps now data.defaultCart },
             [Step.sync, Step.count, Step.bulkProducts, Step.bulkDeliveryOptions,
               Step.bulkCartItems, Step.bulkOrders], false⟩)
        else
          (Except.ok (),
            ⟨⟨s.products ++ productsWithTimestamps now data.defaultProducts,
              s.deliveryOptions ++ deliveryOptionsWithTimestamps now data.defaultDeliveryOptions,
              s.cartItems ++ cartItemsWithTimestamps now data.defaultCart,
              s.orders ++ ordersWithTimestamps now data.defaultOrders⟩,
             [Step.sync, Step.count, Step.bulkProducts, Step.bulkDeliveryOptions,
               Step.bulkCartItems, Step.bulkOrders, Step.listen], true⟩)
      else (Except.ok (), ⟨s, [Step.sync, Step.count, Step.listen], true⟩) := by
  unfold boot startup sync Product.count Product.bulkCreate DeliveryOption.bulkCreate
    CartItem.bulkCreate Order.bulkCreate attempt listen update
  simp only [bind, pure]
  by_cases hp : s.products.length = 0 <;>
    cases h1 : faults.fails Step.sync <;> cases h2 : faults.fails Step.count <;>
    cases h3 : faults.fails Step.bulkProducts <;>
    cases h4 : faults.fails Step.bulkDeliveryOptions <;>
    cases h5 : faults.fails Step.bulkCartItems <;>
    cases h6 : faults.fails Step.bulkOrders <;>
    simp [hp]

/-- With a Product row present the run leaves the store as it found it. -/
theorem boot_store_fixed (faults : Faults) (data : Defaults) (now : Nat) (s : Store)
    (h : s.products ≠ []) : (boot faults data now s).2.store = s := by
  have hp : ¬ s.products.length = 0 := by simpa using h
  rw [boot_eq]
  simp only [hp, if_false]
  split_ifs <;> rfl

/-- With a Product row present any number of restarts leaves the store as it
was. -/
theorem restarts_fixed (data : Defaults) (s : Store) (h : s.products ≠ [])
    (runs : List (Faults × Nat)) : restarts data s runs = s := by
  induction runs with
  | nil => rfl
  | cons run rest ih =>
    have hstep : restart data s run = s := boot_store_fixed run.1 data run.2 s h
    simpa [restarts, List.foldl, hstep] using ih

/-- Index-stamped rows satisfy `Stamped`. -/
theorem stamped_mapIdx (base : Nat) (dataset : List Fields) :
    Stamped base dataset (dataset.mapIdx fun i p => ⟨p, base + i, base + i⟩) := by
  have hpair : List.Pairwise (fun a b => a < b)
      ((dataset.mapIdx fun i p => (⟨p, base + i, base + i⟩ : Row)).map Row.createdAt) := by
    rw [List.pairwise_iff_getElem]
    intro i j hi hj hij
    simp only [List.getElem_map, List.getElem_mapIdx]
    omega
  refine ⟨by simp, ?_, hpair, ?_⟩
  · intro i h
    simp [List.getElem?_mapIdx, List.getElem?_eq_getElem h]
  · exact hpair.imp (fun hab => Nat.ne_of_lt hab)

/-! ## Startup theorems -/

/-- C4, refuted as stated: on a store whose Product collection is empty but
which already holds a DeliveryOption row, a successful initialization leaves
more DeliveryOption rows than `defaultDeliveryOptions` has entries. -/
theorem seed_counts_counterexample :
    strayStore.products = [] ∧
    (boot noFaults sampleDefaults 1000 strayStore).1 = Except.ok () ∧
    (boot noFaults sampleDefaults 1000 strayStore).2.store.deliveryOptions.length = 2 ∧
    sampleDefaults.defaultDeliveryOptions.length = 1 :=
  ⟨rfl, rfl, by decide, rfl⟩

/-- C4, amended: when the Product collection is empty at startup and
initialization completes successfully, the Product collection holds exactly as
many rows as `defaultProducts`, and each of the other three collections holds
the rows it had before plus exactly as many rows as its default dataset; so
when all four collections are empty at startup each ends with exactly the size
of its default dataset. -/
theorem seed_counts (faults : Faults) (data : Defaults) (now : Nat) (s : Store)
    (hempty : s.products = []) (hok : (boot faults data now s).1 = Except.ok ()) :
    (boot faults data now s).2.store.products.length = data.defaultProducts.length ∧
    (boot faults data now s).2.store.deliveryOptions.length =
      s.deliveryOptions.length + data.defaultDeliveryOptions.length ∧
    (boot faults data now s).2.store.cartItems.length =
      s.cartItems.length + data.defaultCart.length ∧
    (boot faults data now s).2.store.orders.length =
      s.orders.length + data.defaultOrders.length ∧
    (s.deliveryOptions = [] → s.cartItems = [] → s.orders = [] →
      (boot faults data now s).2.store.deliveryOptions.length =
        data.defaultDeliveryOptions.length ∧
      (boot faults data now s).2.store.cartItems.length = data.defaultCart.length ∧
      (boot faults data now s).2.store.orders.length = data.defaultOrders.length) := by
  have hp : s.products.length = 0 := by simp [hempty]
  rw [boot_eq] at hok ⊢
  simp only [hp, if_true] at hok ⊢
  split_ifs at hok ⊢
  simp [hempty, productsWithTimestamps, deliveryOptionsWithTimestamps, cartItemsWithTimestamps,
    ordersWithTimestamps]
  intro h1 h2 h3
  simp [h1, h2, h3]

/-- Witness for `seed_counts`: the empty store, no faults, the sample datasets. -/
theorem seed_counts_witness :
    (boot noFaults sampleDefaults 1000 emptyStore).2.store.products.length = 2 ∧
    (boot noFaults sampleDefaults 1000 emptyStore).2.store.deliveryOptions.length = 1 ∧
    (boot noFaults sampleDefaults 1000 emptyStore).2.store.cartItems.length = 1 ∧
    (boot noFaults sampleDefaults 1000 emptyStore).2.store.orders.length = 1 :=
  have h := seed_counts noFaults sampleDefaults 1000 emptyStore rfl rfl
  ⟨h.1, h.2.1, h.2.2.1, h.2.2.2.1⟩

/-- C5: when the Product collection holds at least one row at startup, a run
attempts no bulk insert and leaves all four collections exactly as they were,
whatever fails; hence any number of restarts leaves the store unchanged. -/
theorem no_reseed (data : Defaults) (s : Store) (h : s.products ≠ []) :
    (∀ (faults : Faults) (now : Nat),
      (boot faults data now s).2.store = s ∧
      ∀ step ∈ (boot faults data now s).2.trace,
        step = Step.sync ∨ step = Step.count ∨ step = Step.listen) ∧
    ∀ runs : List (Faults × Nat), restarts data s runs = s := by
  refine ⟨fun faults now => ⟨boot_store_fixed faults data now s h, ?_⟩,
    restarts_fixed data s h⟩
  have hp : ¬ s.products.length = 0 := by simpa using h
  rw [boot_eq]
  simp only [hp, if_false]
  split_ifs <;> simp

/-- Witness for `no_reseed`: three restarts on a store with one Product row. -/
theorem no_reseed_witness :
    restarts sampleDefaults oneProductStore
      [(noFaults, 10), (failAt Step.count, 20), (noFaults, 30)] = oneProductStore :=
  (no_reseed sampleDefaults oneProductStore (by decide)).2 _

/-- C6: with base timestamp `base`, each of the four seeded arrays has the
length and order of its dataset, entry `i` (from 0 in every dataset) carries
`createdAt = updatedAt = base + i`, and the timestamps of an array increase
strictly and are pairwise distinct; a seeding run on the empty store inserts
exactly these four arrays, all built from the one clock reading. -/
theorem seed_timestamps (base : Nat) (data : Defaults) :
    Stamped base data.defaultProducts (productsWithTimestamps base data.defaultProducts) ∧
    Stamped base data.defaultDeliveryOptions
      (deliveryOptionsWithTimestamps base data.defaultDeliveryOptions) ∧
    Stamped base data.defaultCart (cartItemsWithTimestamps base data.defaultCart) ∧
    Stamped base data.defaultOrders (ordersWithTimestamps base data.defaultOrders) ∧
    (boot noFaults data base emptyStore).2.store =
      ⟨productsWithTimestamps base data.defaultProducts,
       deliveryOptionsWithTimestamps base data.defaultDeliveryOptions,
       cartItemsWithTimestamps base data.defaultCart,
       ordersWithTimestamps base data.defaultOrders⟩ := by
  refine ⟨stamped_mapIdx base _, stamped_mapIdx base _, stamped_mapIdx base _,
    stamped_mapIdx base _, ?_⟩
  rw [boot_eq]
  simp [noFaults, emptyStore]

/-- C7: the listener is started exactly when `listen` is executed; `listen` is
executed only at the end of the whole sequence, every step of which was
attempted in order and succeeded; and if sync, the count or a bulk insert on
the path fails, the startup ends in failure at a failing step, `listen` is
never executed and the listener is not started. -/
theorem listen_only_after_success (faults : Faults) (data : Defaults) (now : Nat) (s : Store) :
    ((boot faults data now s).2.listening = true ↔
      Step.listen ∈ (boot faults data now s).2.trace) ∧
    (Step.listen ∈ (boot faults data now s).2.trace →
      (boot faults data now s).1 = Except.ok () ∧
      (boot faults data now s).2.trace = sequence (s.products.length == 0) ++ [Step.listen] ∧
      ∀ step ∈ sequence (s.products.length == 0), faults.fails step = false) ∧
    (∀ step ∈ sequence (s.products.length == 0), faults.fails step = true →
      (∃ bad, (boot faults data now s).1 = Except.error bad ∧ faults.fails bad = true) ∧
      Step.listen ∉ (boot faults data now s).2.trace ∧
      (boot faults data now s).2.listening = false) := by
  rw [boot_eq]
  by_cases hp : s.products.length = 0 <;>
    cases h1 : faults.fails Step.sync <;> cases h2 : faults.fails Step.count <;>
    cases h3 : faults.fails Step.bulkProducts <;>
    cases h4 : faults.fails Step.bulkDeliveryOptions <;>
    cases h5 : faults.fails Step.bulkCartItems <;>
    cases h6 : faults.fails Step.bulkOrders <;>
    simp [hp, sequence, h1, h2, h3, h4, h5, h6]

/-- Witness for `listen_only_after_success`: the cart insert fails while
seeding the empty store, so the run fails and never listens. -/
theorem listen_only_after_success_witness :
    (∃ bad, (boot (failAt Step.bulkCartItems) sampleDefaults 1000 emptyStore).1 =
        Except.error bad ∧ (failAt Step.bulkCartItems).fails bad = true) ∧
    Step.listen ∉ (boot (failAt Step.bulkCartItems) sampleDefaults 1000 emptyStore).2.trace ∧
    (boot (failAt Step.bulkCartItems) sampleDefaults 1000 emptyStore).2.listening = false :=
  (listen_only_after_success (failAt Step.bulkCartItems) sampleDefaults 1000 emptyStore).2.2
    Step.bulkCartItems (by decide) (by decide)

/-- C10: when a run on a store with no Product rows (and a non-empty
`defaultProducts`) fails at a bulk insert after the Product one, the Product
rows stay inserted and the collections whose insert did not happen keep their
old contents; every later run on that store inserts nothing, and a later run
whose sync and count succeed goes straight to `listen`. -/
theorem unfinished_seed_not_repaired (faults : Faults) (data : Defaults) (now : Nat) (s : Store)
    (bad : Step) (hempty : s.products = []) (hdata : data.defaultProducts ≠ [])
    (hbad : bad = Step.bulkDeliveryOptions ∨ bad = Step.bulkCartItems ∨ bad = Step.bulkOrders)
    (hfail : (boot faults data now s).1 = Except.error bad) :
    (boot faults data now s).2.store.products =
      productsWithTimestamps now data.defaultProducts ∧
    (boot faults data now s).2.store.products ≠ [] ∧
    (boot faults data now s).2.listening = false ∧
    (bad = Step.bulkDeliveryOptions →
      (boot faults data now s).2.store.deliveryOptions = s.deliveryOptions) ∧
    (bad = Step.bulkDeliveryOptions ∨ bad = Step.bulkCartItems →
      (boot faults data now s).2.store.cartItems = s.cartItems) ∧
    (boot faults data now s).2.store.orders = s.orders ∧
    ∀ runs : List (Faults × Nat),
      restarts data (boot faults data now s).2.store runs = (boot faults data now s).2.store ∧
      ∀ (later : Faults) (now2 : Nat),
        later.fails Step.sync = false → later.fails Step.count = false →
        boot later data now2 (restarts data (boot faults data now s).2.store runs) =
          (Except.ok (),
            ⟨(boot faults data now s).2.store, [Step.sync, Step.count, Step.listen], true⟩) := by
  have hne : productsWithTimestamps now data.defaultProducts ≠ [] := by
    simpa [productsWithTimestamps, List.mapIdx_eq_nil_iff] using hdata
  have hp : s.products.length = 0 := by simp [hempty]
  have later_runs : ∀ st : Store, st.products ≠ [] → ∀ runs : List (Faults × Nat),
      restarts data st runs = st ∧
      ∀ (later : Faults) (now2 : Nat),
        later.fails Step.sync = false → later.fails Step.count = false →
        boot later data now2 (restarts data st runs) =
          (Except.ok (), ⟨st, [Step.sync, Step.count, Step.listen], true⟩) := by
    intro st hst runs
    have hfix := restarts_fixed data st hst runs
    have hlen : ¬ st.products.length = 0 := by simpa using hst
    refine ⟨hfix, fun later now2 hs hc => ?_⟩
    rw [hfix, boot_eq]
    simp [hs, hc, hlen]
  have key := boot_eq faults data now s
  simp only [hp, if_true] at key
  generalize boot faults data now s = r at key hfail ⊢
  cases h1 : faults.fails Step.sync <;> cases h2 : faults.fails Step.count <;>
    cases h3 : faults.fails Step.bulkProducts <;>
    cases h4 : faults.fails Step.bulkDeliveryOptions <;>
    cases h5 : faults.fails Step.bulkCartItems <;>
    cases h6 : faults.fails Step.bulkOrders <;>
    simp only [h1, h2, h3, h4, h5, h6, if_true, if_false, Bool.false_eq_true] at key <;>
    subst key <;>
    first
      | (simp at hfail; done)
      | (simp at hfail; subst hfail; simp at hbad; done)
      | (simp at hfail
         subst hfail
         exact ⟨by simp [hempty], by simp [hempty, hne], by simp, by simp, by simp, by simp,
           later_runs _ (by simp [hempty, hne])⟩)

/-- Witness for `unfinished_seed_not_repaired`: the cart insert fails while seeding
the empty store; the next run, after two others, listens without inserting. -/
theorem unfinished_seed_not_repaired_witness :
    boot noFaults sampleDefaults 3000
        (restarts sampleDefaults
          (boot (failAt Step.bulkCartItems) sampleDefaults 1000 emptyStore).2.store
          [(noFaults, 2000), (failAt Step.sync, 2500)]) =
      (Except.ok (),
        ⟨(boot (failAt Step.bulkCartItems) sampleDefaults 1000 emptyStore).2.store,
         [Step.sync, Step.count, Step.listen], true⟩) :=
  ((unfinished_seed_not_repaired (failAt Step.bulkCartItems) sampleDefaults 1000 emptyStore
      Step.bulkCartItems rfl (by decide) (Or.inr (Or.inl rfl)) rfl).2.2.2.2.2.2
    [(noFaults, 2000), (failAt Step.sync, 2500)]).2 noFaults 3000 rfl rfl

/-! ## Request lemmas -/

/-- Once an error is pending, whatever layer raised it, the rest of the stack
is skipped up to the error handler, which answers. -/
theorem dispatch_pending (allowed : List String) (ext : Externals) (store : Store) (k : Nat)
    (hk : k ≤ 11) (err : Err) (req : Req) (res : Res) (seen : List Stage)
    (hres : res.sent = []) :
    dispatch ((app allowed ext store).drop k) (some err) req res seen =
      ⟨errorHandler err req res, seen ++ [Stage.errorHandler]⟩ := by
  interval_cases k <;> simp [app, dispatch, hres]

/-- A request the origin callback rejects is answered by the error handler
straight after the CORS layer. -/
theorem serve_rejected (allowed : List String) (ext : Externals) (store : Store) (req : Req)
    (err : Err) (h : originCallback allowed req.origin = Except.error err) :
    serve allowed ext store req =
      ⟨errorHandler err req Res.fresh, [Stage.corsGate, Stage.errorHandler]⟩ := by
  have hd := dispatch_pending allowed ext store 1 (by decide) err req Res.fresh [Stage.corsGate]
    rfl
  simp only [serve, app, dispatch, corsMiddleware, h, if_true, List.nil_append]
  simp [app] at hd
  exact hd

/-- The stages reached only grow along the stack. -/
theorem dispatch_seen (layers : List Layer) (pending : Option Err) (req : Req) (res : Res)
    (seen : List Stage) : seen <+: (dispatch layers pending req res seen).reached := by
  induction layers generalizing pending res seen with
  | nil => simp [dispatch]
  | cons layer rest ih =>
    cases layer with
    | normal stage applies run =>
      cases pending with
      | none =>
        simp only [dispatch]
        split
        · split
          · exact (List.prefix_append seen [stage]).trans (ih _ _ _)
          · exact (List.prefix_append seen [stage]).trans (ih _ _ _)
          · exact List.prefix_append seen [stage]
          · exact List.prefix_append seen [stage]
        · exact ih _ _ _
      | some err =>
        simp only [dispatch]
        exact ih _ _ _
    | onError stage run =>
      cases pending with
      | none =>
        simp only [dispatch]
        exact ih _ _ _
      | some err =>
        simp only [dispatch]
        split
        · exact (List.prefix_append seen [stage]).trans (ih _ _ _)
        · exact (List.prefix_append seen [stage]).trans (ih _ _ _)
        · exact List.prefix_append seen [stage]
        · exact List.prefix_append seen [stage]

/-- Every stage reached was seen before or belongs to a layer of the stack. -/
theorem dispatch_reached_subset (layers : List Layer) (pending : Option Err) (req : Req)
    (res : Res) (seen : List Stage) :
    ∀ s ∈ (dispatch layers pending req res seen).reached,
      s ∈ seen ∨ s ∈ layers.map Layer.stage := by
  induction layers generalizing pending res seen with
  | nil => simp [dispatch]
  | cons layer rest ih =>
    intro s hs
    have hstep : ∀ (p : Option Err) (r : Res),
        s ∈ (dispatch rest p req r (seen ++ [layer.stage])).reached →
        s ∈ seen ∨ s ∈ (layer :: rest).map Layer.stage := by
      intro p r h
      rcases ih p r (seen ++ [layer.stage]) s h with h1 | h1
      · rcases List.mem_append.mp h1 with h2 | h2
        · exact Or.inl h2
        · exact Or.inr (by simp [List.mem_singleton.mp h2])
      · exact Or.inr (by simp [h1])
    have hskip : ∀ (p : Option Err) (r : Res),
        s ∈ (dispatch rest p req r seen).reached →
        s ∈ seen ∨ s ∈ (layer :: rest).map Layer.stage := by
      intro p r h
      rcases ih p r seen s h with h1 | h1
      · exact Or.inl h1
      · exact Or.inr (by simp [h1])
    have hstop : s ∈ seen ++ [layer.stage] →
        s ∈ seen ∨ s ∈ (layer :: rest).map Layer.stage := by
      intro h
      rcases List.mem_append.mp h with h2 | h2
      · exact Or.inl h2
      · exact Or.inr (by simp [List.mem_singleton.mp h2])
    cases layer with
    | normal stage applies run =>
      cases pending with
      | none =>
        simp only [dispatch] at hs
        split at hs
        · split at hs
          · exact hstep _ _ hs
          · exact hstep _ _ hs
          · exact hstop hs
          · exact hstop hs
        · exact hskip _ _ hs
      | some err =>
        simp only [dispatch] at hs
        exact hskip _ _ hs
    | onError stage run =>
      cases pending with
      | none =>
        simp only [dispatch] at hs
        exact hskip _ _ hs
      | some err =>
        simp only [dispatch] at hs
        split at hs
        · exact hstep _ _ hs
        · exact hstep _ _ hs
        · exact hstop hs
        · exact hstop hs

/-- With an error pending the ordinary layers at the head of the stack are
passed over. -/
theorem dispatch_pending_normals (before rest : List Layer) (err : Err) (req : Req) (res : Res)
    (seen : List Stage) (hnormal : before.all Layer.isNormal = true) :
    dispatch (before ++ rest) (some err) req res seen = dispatch rest (some err) req res seen := by
  induction before with
  | nil => rfl
  | cons layer bs ih =>
    cases layer with
    | normal stage applies run =>
      simp only [List.all_cons, Layer.isNormal, Bool.true_and] at hnormal
      simp only [List.cons_append, dispatch]
      exact ih hnormal
    | onError stage run =>
      simp [Layer.isNormal] at hnormal

/-- A request that reaches an ordinary layer behind ordinary layers which do
not write before `next()` arrives there with no error pending and with the
response it started with, and the layer matches it. -/
theorem dispatch_arrives (before : List Layer) (stage : Stage) (applies : Req → Bool)
    (run : Req → Res → Flow) (after : List Layer) (req : Req) (res : Res) (seen : List Stage)
    (hnormal : before.all Layer.isNormal = true)
    (hhands : ∀ layer ∈ before, layer.handsOn req res)
    (hbefore : stage ∉ before.map Layer.stage) (hafter : stage ∉ after.map Layer.stage)
    (hseen : stage ∉ seen)
    (hmem : stage ∈
      (dispatch (before ++ Layer.normal stage applies run :: after) none req res seen).reached) :
    applies req = true ∧
    ∃ seen1, stage ∉ seen1 ∧
      dispatch (before ++ Layer.normal stage applies run :: after) none req res seen =
        dispatch (Layer.normal stage applies run :: after) none req res seen1 := by
  induction before generalizing seen with
  | nil =>
    by_cases ha : applies req = true
    · exact ⟨ha, seen, hseen, rfl⟩
    · exfalso
      simp only [List.nil_append, dispatch, ha] at hmem
      rcases dispatch_reached_subset after none req res seen stage (by simpa using hmem) with h | h
      · exact hseen h
      · exact hafter h
  | cons layer bs ih =>
    cases layer with
    | onError stage0 run0 =>
      simp [Layer.isNormal] at hnormal
    | normal stage0 applies0 run0 =>
      simp only [List.all_cons, Layer.isNormal, Bool.true_and] at hnormal
      have hne : stage ≠ stage0 := by
        intro h
        exact hbefore (by simp [Layer.stage, h])
      have hbs : stage ∉ bs.map Layer.stage := by
        intro h
        exact hbefore (by simp [h])
      have hhands1 : ∀ layer ∈ bs, layer.handsOn req res :=
        fun layer hl => hhands layer (List.mem_cons_of_mem _ hl)
      have hseen1 : stage ∉ seen ++ [stage0] := by
        simp [hseen, hne]
      have hite := hhands (Layer.normal stage0 applies0 run0) (List.mem_cons_self _ _)
      simp only [Layer.handsOn] at hite
      simp only [List.cons_append, dispatch] at hmem ⊢
      by_cases ha : applies0 req = true
      · simp only [ha, if_true] at hmem ⊢
        cases hrun : run0 req res with
        | next res1 =>
          have hres : res1 = res := hite res1 hrun
          subst hres
          simp only [hrun] at hmem ⊢
          exact ih (seen ++ [stage0]) hnormal hhands1 hbs hseen1 hmem
        | nextErr err res1 =>
          exfalso
          simp only [hrun] at hmem
          have hpass := dispatch_pending_normals (bs ++ [Layer.normal stage applies run]) after
            err req res1 (seen ++ [stage0]) (by simp [hnormal, Layer.isNormal])
          simp only [List.append_assoc, List.singleton_append] at hpass
          have hmem1 : stage ∈
              (dispatch after (some err) req res1 (seen ++ [stage0])).reached := by
            rw [← hpass]
            exact hmem
          rcases dispatch_reached_subset after (some err) req res1 _ stage hmem1 with h | h
          · exact hseen1 h
          · exact hafter h
        | exit res1 =>
          exfalso
          simp only [hrun] at hmem
          exact hseen1 hmem
        | ended res1 =>
          exfalso
          simp only [hrun] at hmem
          exact hseen1 hmem
      · simp only [ha] at hmem ⊢
        exact ih seen hnormal hhands1 hbs hseen hmem

/-- No layer of `app` that calls `next()` has written to the response. -/
theorem app_handsOn (allowed : List String) (ext : Externals) (store : Store) (req : Req)
    (res : Res) : ∀ layer ∈ app allowed ext store, layer.handsOn req res := by
  have hflow : ∀ (h : Handled) (res1 : Res), h.flow res = Flow.next res1 → res1 = res := by
    intro h res1 hh
    cases h with
    | respond status body => simp [Handled.flow] at hh
    | raise value => cases value <;> simp [Handled.flow, Thrown.flow] at hh <;> exact hh.symm
    | respondThenRaise status body err => simp [Handled.flow] at hh
    | pass => simp [Handled.flow] at hh; exact hh.symm
  have hcors : ∀ (origin : Option String → Except Err Bool) (res1 : Res),
      corsMiddleware origin req res = Flow.next res1 → res1 = res := by
    intro origin res1 hh
    unfold corsMiddleware at hh
    split at hh
    · simp at hh
    · simp at hh; exact hh.symm
    · split at hh
      · simp at hh
      · simp at hh; exact hh.symm
  intro layer hl
  simp only [app, List.mem_cons, List.mem_singleton, List.not_mem_nil, or_false] at hl
  rcases hl with rfl | rfl | rfl | rfl | rfl | rfl | rfl | rfl | rfl | rfl | rfl | rfl
  · exact hcors _
  · exact hcors _
  · intro res1 hh
    dsimp only at hh
    split at hh
    · simp at hh
    · simp at hh; exact hh.symm
  · intro res1 hh
    simp at hh
  · exact hflow _
  · exact hflow _
  · exact hflow _
  · exact hflow _
  · exact hflow _
  · exact hflow _
  · exact hflow _
  · trivial

/-- An ordinary layer that matches and calls `next()` hands over to the rest. -/
theorem dispatch_next (stage : Stage) (applies : Req → Bool) (run : Req → Res → Flow)
    (rest : List Layer) (req : Req) (res res1 : Res) (seen : List Stage)
    (ha : applies req = true) (hr : run req res = Flow.next res1) :
    dispatch (Layer.normal stage applies run :: rest) none req res seen =
      dispatch rest none req res1 (seen ++ [stage]) := by
  simp [dispatch, ha, hr]

/-- An ordinary layer that matches and calls `next(err)` hands over to the rest
with the error pending. -/
theorem dispatch_raise (stage : Stage) (applies : Req → Bool) (run : Req → Res → Flow)
    (rest : List Layer) (req : Req) (res res1 : Res) (err : Err) (seen : List Stage)
    (ha : applies req = true) (hr : run req res = Flow.nextErr err res1) :
    dispatch (Layer.normal stage applies run :: rest) none req res seen =
      dispatch rest (some err) req res1 (seen ++ [stage]) := by
  simp [dispatch, ha, hr]

/-- An ordinary layer that does not match is passed over. -/
theorem dispatch_skip (stage : Stage) (applies : Req → Bool) (run : Req → Res → Flow)
    (rest : List Layer) (req : Req) (res : Res) (seen : List Stage)
    (ha : applies req = false) :
    dispatch (Layer.normal stage applies run :: rest) none req res seen =
      dispatch rest none req res seen := by
  simp [dispatch, ha]

/-- A request the origin callback allows is not answered by the error handler
straight after the CORS layer. -/
theorem serve_allowed_reached (allowed : List String) (ext : Externals) (store : Store)
    (req : Req) (h : originCallback allowed req.origin = Except.ok true) :
    (serve allowed ext store req).reached ≠ [Stage.corsGate, Stage.errorHandler] := by
  by_cases hm : req.method = "OPTIONS"
  · simp [serve, app, dispatch, corsMiddleware, h, hm]
  · have hcors : corsMiddleware (originCallback allowed) req Res.fresh = Flow.next Res.fresh := by
      simp [corsMiddleware, h, hm]
    have hpre : (fun r : Req => r.method == "OPTIONS") req = false := by simp [hm]
    unfold serve app
    rw [dispatch_next _ _ _ _ _ _ _ _ rfl hcors, dispatch_skip _ _ _ _ _ _ _ hpre]
    have hno : ∀ (layers : List Layer) (pending : Option Err) (res : Res),
        (dispatch layers pending req res ([] ++ [Stage.corsGate] ++ [Stage.jsonBody])).reached ≠
          [Stage.corsGate, Stage.errorHandler] := by
      intro layers pending res heq
      have hseen := dispatch_seen layers pending req res
        ([] ++ [Stage.corsGate] ++ [Stage.jsonBody])
      rw [heq] at hseen
      simp at hseen
    cases hb : ext.jsonParser req with
    | none =>
      rw [dispatch_next _ _ _ _ _ _ Res.fresh _ rfl (by simp [hb])]
      exact hno _ _ _
    | some err =>
      rw [dispatch_raise _ _ _ _ _ _ Res.fresh err _ rfl (by simp [hb])]
      exact hno _ _ _

/-- A request that reaches the router at position `k - 1` of the stack, which
raises an error without having written, is answered by the error handler. -/
theorem router_raise_at (allowed : List String) (ext : Externals) (store : Store) (req : Req)
    (before after : List Layer) (stage : Stage) (applies : Req → Bool)
    (router : Store → Req → Handled) (err : Err) (k : Nat) (hk : k ≤ 11)
    (hafterk : after = (app allowed ext store).drop k)
    (happ : app allowed ext store =
      before ++ Layer.normal stage applies (fun req res => (router store req).flow res) :: after)
    (hnormal : before.all Layer.isNormal = true)
    (hbefore : stage ∉ before.map Layer.stage) (hafter : stage ∉ after.map Layer.stage)
    (hreached : stage ∈ (serve allowed ext store req).reached)
    (hraise : router store req = Handled.raise (Thrown.error err)) :
    ∃ seen1, serve allowed ext store req =
      ⟨errorHandler err req Res.fresh, seen1 ++ [stage] ++ [Stage.errorHandler]⟩ := by
  have hhands : ∀ layer ∈ before, layer.handsOn req Res.fresh := by
    intro layer hl
    apply app_handsOn allowed ext store req Res.fresh
    rw [happ]
    exact List.mem_append_left _ hl
  unfold serve at hreached ⊢
  have hdisp : ∀ seen1, dispatch after (some err) req Res.fresh seen1 =
      ⟨errorHandler err req Res.fresh, seen1 ++ [Stage.errorHandler]⟩ := by
    intro seen1
    rw [hafterk]
    exact dispatch_pending allowed ext store k hk err req Res.fresh seen1 rfl
  rw [happ] at hreached ⊢
  obtain ⟨ha, seen1, _, heq⟩ := dispatch_arrives before stage applies _ after req Res.fresh []
    hnormal hhands hbefore hafter (by simp) hreached
  refine ⟨seen1, ?_⟩
  rw [heq, dispatch_raise _ _ _ _ _ _ Res.fresh err _ ha
    (by simp [hraise, Handled.flow, Thrown.flow]), hdisp]

/-- With status 403 or 500 pending no request is fresh, so `res.json` is the
plain write the error handler is given. -/
theorem jsonTo_error_status (res : Res) (ext : Externals) (req : Req)
    (obj : List (String × String)) (h : res.statusCode = 403 ∨ res.statusCode = 500) :
    res.jsonTo ext req obj = res.json obj := by
  rcases h with h | h <;> simp [Res.jsonTo, Req.fresh, h]

/-- The layer `app.options('*', cors())` never runs: the first CORS layer ends
or rejects every `OPTIONS` request itself. -/
theorem preflight_layer_unreached (allowed : List String) (ext : Externals) (store : Store)
    (req : Req) : Stage.preflight ∉ (serve allowed ext store req).reached := by
  have hcases : originCallback allowed req.origin = Except.ok true ∨
      originCallback allowed req.origin = Except.error ⟨some "Not allowed by CORS"⟩ := by
    unfold originCallback
    split_ifs <;> simp
  rcases hcases with h | h
  · by_cases hm : req.method = "OPTIONS"
    · have hs : serve allowed ext store req =
          ⟨(Res.fresh.status 204).endEmpty, [Stage.corsGate]⟩ := by
        simp [serve, app, dispatch, corsMiddleware, h, hm]
      rw [hs]
      simp
    · have hcors : corsMiddleware (originCallback allowed) req Res.fresh =
          Flow.next Res.fresh := by
        simp [corsMiddleware, h, hm]
      have hpre : (fun r : Req => r.method == "OPTIONS") req = false := by simp [hm]
      unfold serve app
      rw [dispatch_next _ _ _ _ _ _ _ _ rfl hcors, dispatch_skip _ _ _ _ _ _ _ hpre]
      intro hmem
      rcases dispatch_reached_subset _ _ _ _ _ _ hmem with h1 | h1
      · simp at h1
      · simp [Layer.stage] at h1
  · rw [serve_rejected allowed ext store req _ h]
    simp

/-- The callback rejects exactly the non-empty origins outside the list. -/
theorem originCallback_reject (allowed : List String) (o : String) (h1 : o ≠ "")
    (h2 : o ∉ allowed) :
    originCallback allowed (some o) = Except.error ⟨some "Not allowed by CORS"⟩ := by
  simp [originCallback, notOrigin, includes, h1, h2]

/-! ## Request theorems -/

/-- C1: a request without an Origin header is allowed whatever the allow-list
holds; a non-empty Origin in the allow-list is allowed; a non-empty Origin
outside it is rejected, and the response is status 403 with error message
"Not allowed by CORS". -/
theorem origin_gate (allowed : List String) (ext : Externals) (store : Store) (req : Req) :
    (req.origin = none →
      originCallback allowed req.origin = Except.ok true ∧
      (∀ res, corsMiddleware (originCallback allowed) req res =
        if req.method = "OPTIONS" then Flow.ended ((res.status 204).endEmpty)
        else Flow.next res) ∧
      (serve allowed ext store req).reached ≠ [Stage.corsGate, Stage.errorHandler]) ∧
    (∀ o, req.origin = some o → o ≠ "" → o ∈ allowed →
      originCallback allowed req.origin = Except.ok true ∧
      (∀ res, corsMiddleware (originCallback allowed) req res =
        if req.method = "OPTIONS" then Flow.ended ((res.status 204).endEmpty)
        else Flow.next res) ∧
      (serve allowed ext store req).reached ≠ [Stage.corsGate, Stage.errorHandler]) ∧
    (∀ o, req.origin = some o → o ≠ "" → o ∉ allowed →
      originCallback allowed req.origin = Except.error ⟨some "Not allowed by CORS"⟩ ∧
      (∀ res, corsMiddleware (originCallback allowed) req res =
        Flow.nextErr ⟨some "Not allowed by CORS"⟩ res) ∧
      (serve allowed ext store req).res.sent =
        [⟨403, Body.json [("error", "Not allowed by CORS")]⟩] ∧
      (serve allowed ext store req).reached = [Stage.corsGate, Stage.errorHandler]) := by
  refine ⟨?_, ?_, ?_⟩
  · intro h
    have hok : originCallback allowed req.origin = Except.ok true := by
      simp [originCallback, notOrigin, h]
    exact ⟨hok, fun res => by simp [corsMiddleware, hok],
      serve_allowed_reached allowed ext store req hok⟩
  · intro o h h1 h2
    have hok : originCallback allowed req.origin = Except.ok true := by
      simp [originCallback, notOrigin, includes, h, h1, h2]
    exact ⟨hok, fun res => by simp [corsMiddleware, hok],
      serve_allowed_reached allowed ext store req hok⟩
  · intro o h h1 h2
    have hrej := originCallback_reject allowed o h1 h2
    rw [← h] at hrej
    refine ⟨hrej, ?_, ?_⟩
    · intro res
      simp [corsMiddleware, hrej]
    · rw [serve_rejected allowed ext store req _ hrej]
      exact ⟨rfl, rfl⟩

/-- Witness for `origin_gate`: a foreign Origin on the health route is answered
403 with the rejection message. -/
theorem origin_gate_witness :
    (serve allowedOrigins quietExternals emptyStore
        ⟨"GET", "/api/health", some "http://evil.example", "", none, none⟩).res.sent =
      [⟨403, Body.json [("error", "Not allowed by CORS")]⟩] :=
  ((origin_gate allowedOrigins quietExternals emptyStore
      ⟨"GET", "/api/health", some "http://evil.example", "", none, none⟩).2.2
    "http://evil.example" rfl (by decide) (by decide)).2.2.1

/-- C2: the error handler answers once, with status 403 when the message is
"Not allowed by CORS" and 500 otherwise, and with the JSON body whose `error`
is the message when there is a non-empty one and "Something went wrong!" when
there is none; so the status is 403 or 500. -/
theorem error_handler_response (err : Err) (req : Req) (res : Res) :
    ∃ status text,
      (errorHandler err req res).sent = res.sent ++ [⟨status, Body.json [("error", text)]⟩] ∧
      (err.message = some "Not allowed by CORS" → status = 403) ∧
      (err.message ≠ some "Not allowed by CORS" → status = 500) ∧
      (∀ m, err.message = some m → m ≠ "" → text = m) ∧
      (err.message = none ∨ err.message = some "" → text = "Something went wrong!") ∧
      (status = 403 ∨ status = 500) := by
  refine ⟨if err.message = some "Not allowed by CORS" then 403 else 500,
    orElse err.message "Something went wrong!", rfl, ?_, ?_, ?_, ?_, ?_⟩
  · intro h
    simp [h]
  · intro h
    simp [h]
  · intro m h hm
    simp [orElse, h, hm]
  · rintro (h | h) <;> simp [orElse, h]
  · split_ifs <;> simp

/-- C3, refuted as stated: a product-router error whose message is
"Not allowed by CORS" is answered with status 403, not 500; a product router
raising the string `router` gets the 404 of the final handler and the error
handler does not run; and when a product router raises after it has answered
200, that 200 is the only response and the error handler adds none. -/
theorem handler_error_counterexample :
    ((serve allowedOrigins mimicExternals emptyStore
        ⟨"GET", "/api/products", none, "", none, none⟩).reached =
      [Stage.corsGate, Stage.jsonBody, Stage.products, Stage.errorHandler] ∧
    (serve allowedOrigins mimicExternals emptyStore
        ⟨"GET", "/api/products", none, "", none, none⟩).res.sent =
      [⟨403, Body.json [("error", "Not allowed by CORS")]⟩]) ∧
    ((serve allowedOrigins signalExternals emptyStore
        ⟨"GET", "/api/products", none, "", none, none⟩).reached =
      [Stage.corsGate, Stage.jsonBody, Stage.products] ∧
    (serve allowedOrigins signalExternals emptyStore
        ⟨"GET", "/api/products", none, "", none, none⟩).res.sent =
      [⟨404, Body.raw "Cannot GET /api/products"⟩]) ∧
    ((serve allowedOrigins lateExternals emptyStore
        ⟨"GET", "/api/products", none, "", none, none⟩).reached =
      [Stage.corsGate, Stage.jsonBody, Stage.products, Stage.errorHandler] ∧
    (serve allowedOrigins lateExternals emptyStore
        ⟨"GET", "/api/products", none, "", none, none⟩).res.sent =
      [⟨200, Body.json [("id", "p1")]⟩]) := by
  decide

/-- C3, amended: when a request reaches a resource router and the router,
without having written a response, raises a value Express takes for an error
(anything but a falsy value, `route` and `router`), the error handler runs
next and the request gets exactly one response, a JSON error body; its status
is 500 unless the message is exactly "Not allowed by CORS", when it is 403,
and it is never 200. -/
theorem handler_error_response (allowed : List String) (ext : Externals) (store : Store)
    (req : Req) (stage : Stage) (router : Store → Req → Handled) (err : Err)
    (hrouter : ext.routerAt stage = some router)
    (hreached : stage ∈ (serve allowed ext store req).reached)
    (hraise : router store req = Handled.raise (Thrown.error err)) :
    ∃ status text before,
      (serve allowed ext store req).res.sent = [⟨status, Body.json [("error", text)]⟩] ∧
      (serve allowed ext store req).reached = before ++ [stage, Stage.errorHandler] ∧
      (err.message ≠ some "Not allowed by CORS" → status = 500) ∧
      (err.message = some "Not allowed by CORS" → status = 403) ∧
      status ≠ 200 := by
  have hserve : ∃ seen1, serve allowed ext store req =
      ⟨errorHandler err req Res.fresh, seen1 ++ [stage] ++ [Stage.errorHandler]⟩ := by
    cases stage
    case products =>
      simp only [Externals.routerAt, Option.some.injEq] at hrouter
      subst hrouter
      exact router_raise_at allowed ext store req ((app allowed ext store).take 5)
        ((app allowed ext store).drop 6) Stage.products (mounted "/api/products")
        ext.productRoutes err 6 (by decide) rfl rfl rfl (by simp [app, Layer.stage])
        (by simp [app, Layer.stage]) hreached hraise
    case deliveryOptions =>
      simp only [Externals.routerAt, Option.some.injEq] at hrouter
      subst hrouter
      exact router_raise_at allowed ext store req ((app allowed ext store).take 6)
        ((app allowed ext store).drop 7) Stage.deliveryOptions (mounted "/api/delivery-options")
        ext.deliveryOptionRoutes err 7 (by decide) rfl rfl rfl (by simp [app, Layer.stage])
        (by simp [app, Layer.stage]) hreached hraise
    case cartItems =>
      simp only [Externals.routerAt, Option.some.injEq] at hrouter
      subst hrouter
      exact router_raise_at allowed ext store req ((app allowed ext store).take 7)
        ((app allowed ext store).drop 8) Stage.cartItems (mounted "/api/cart-items")
        ext.cartItemRoutes err 8 (by decide) rfl rfl rfl (by simp [app, Layer.stage])
        (by simp [app, Layer.stage]) hreached hraise
    case orders =>
      simp only [Externals.routerAt, Option.some.injEq] at hrouter
      subst hrouter
      exact router_raise_at allowed ext store req ((app allowed ext store).take 8)
        ((app allowed ext store).drop 9) Stage.orders (mounted "/api/orders")
        ext.orderRoutes err 9 (by decide) rfl rfl rfl (by simp [app, Layer.stage])
        (by simp [app, Layer.stage]) hreached hraise
    case reset =>
      simp only [Externals.routerAt, Option.some.injEq] at hrouter
      subst hrouter
      exact router_raise_at allowed ext store req ((app allowed ext store).take 9)
        ((app allowed ext store).drop 10) Stage.reset (mounted "/api/reset")
        ext.resetRoutes err 10 (by decide) rfl rfl rfl (by simp [app, Layer.stage])
        (by simp [app, Layer.stage]) hreached hraise
    case paymentSummary =>
      simp only [Externals.routerAt, Option.some.injEq] at hrouter
      subst hrouter
      exact router_raise_at allowed ext store req ((app allowed ext store).take 10)
        ((app allowed ext store).drop 11) Stage.paymentSummary (mounted "/api/payment-summary")
        ext.paymentSummaryRoutes err 11 (by decide) rfl rfl rfl (by simp [app, Layer.stage])
        (by simp [app, Layer.stage]) hreached hraise
    all_goals simp [Externals.routerAt] at hrouter
  obtain ⟨seen1, hs⟩ := hserve
  rw [hs]
  refine ⟨if err.message = some "Not allowed by CORS" then 403 else 500,
    orElse err.message "Something went wrong!", seen1, rfl, by simp, ?_, ?_, ?_⟩
  · intro h
    simp [h]
  · intro h
    simp [h]
  · split_ifs <;> simp

/-- Witness for `handler_error_response`: the orders router raises an error with
message `boom` on `GET /api/orders`. -/
theorem handler_error_response_witness :
    ∃ status text before,
      (serve allowedOrigins boomExternals emptyStore
          ⟨"GET", "/api/orders", none, "", none, none⟩).res.sent =
        [⟨status, Body.json [("error", text)]⟩] ∧
      (serve allowedOrigins boomExternals emptyStore
          ⟨"GET", "/api/orders", none, "", none, none⟩).reached =
        before ++ [Stage.orders, Stage.errorHandler] ∧
      ((⟨some "boom"⟩ : Err).message ≠ some "Not allowed by CORS" → status = 500) ∧
      ((⟨some "boom"⟩ : Err).message = some "Not allowed by CORS" → status = 403) ∧
      status ≠ 200 :=
  handler_error_response allowedOrigins boomExternals emptyStore
    ⟨"GET", "/api/orders", none, "", none, none⟩ Stage.orders boomExternals.orderRoutes
    ⟨some "boom"⟩ rfl (by decide) rfl

/-- C8, refuted as stated: `GET /api/health` with an Origin outside the
allow-list is answered 403, with a body the JSON parser rejects it is answered
500, and with `If-None-Match: *` found fresh it is answered 304 with no body. -/
theorem health_counterexample :
    (serve allowedOrigins quietExternals emptyStore
        ⟨"GET", "/api/health", some "http://evil.example", "", none, none⟩).res.sent =
      [⟨403, Body.json [("error", "Not allowed by CORS")]⟩] ∧
    (serve allowedOrigins strictExternals emptyStore
        ⟨"GET", "/api/health", none, "[", none, none⟩).res.sent =
      [⟨500, Body.json [("error", "Unexpected end of JSON input")]⟩] ∧
    (serve allowedOrigins cachingExternals emptyStore
        ⟨"GET", "/api/health", none, "", some "*", none⟩).res.sent =
      [⟨304, Body.empty⟩] := by
  decide

/-- C8, amended: `GET /api/health` whose Origin is absent, empty or in the
allow-list and whose body the JSON parser accepts is answered by the health
route, whatever the store holds and whatever the routers do: with status 200
and body `status: "ok"` when it carries neither `If-None-Match` nor
`If-Modified-Since`, and otherwise with that response or, exactly when Express
finds the request fresh, with status 304 and no body. -/
theorem health_ok (allowed : List String) (ext : Externals) (store : Store) (req : Req)
    (hm : req.method = "GET") (hpath : req.path = "/api/health")
    (horigin : req.origin = none ∨ req.origin = some "" ∨ ∃ o ∈ allowed, req.origin = some o)
    (hbody : ext.jsonParser req = none) :
    (req.conditional = false →
      (serve allowed ext store req).res.sent = [⟨200, Body.json [("status", "ok")]⟩]) ∧
    (req.fresh ext 200 (Body.json [("status", "ok")]) = false →
      (serve allowed ext store req).res.sent = [⟨200, Body.json [("status", "ok")]⟩]) ∧
    (req.fresh ext 200 (Body.json [("status", "ok")]) = true →
      (serve allowed ext store req).res.sent = [⟨304, Body.empty⟩]) ∧
    (serve allowed ext store req).reached = [Stage.corsGate, Stage.jsonBody, Stage.health] := by
  have hgate : originCallback allowed req.origin = Except.ok true := by
    rcases horigin with h | h | ⟨o, ho, h⟩
    · simp [originCallback, notOrigin, h]
    · simp [originCallback, notOrigin, h]
    · simp [originCallback, notOrigin, includes, h, ho]
  have hopt : ¬ req.method = "OPTIONS" := by rw [hm]; decide
  have hserve : serve allowed ext store req =
      ⟨healthHandler ext req Res.fresh, [Stage.corsGate, Stage.jsonBody, Stage.health]⟩ := by
    simp [serve, app, dispatch, corsMiddleware, hgate, hopt, hbody, hm, hpath]
  have hplain : req.fresh ext 200 (Body.json [("status", "ok")]) = false →
      (healthHandler ext req Res.fresh).sent = [⟨200, Body.json [("status", "ok")]⟩] := by
    intro h
    simp [healthHandler, Res.jsonTo, Res.fresh, h, Res.json, Res.send]
  rw [hserve]
  refine ⟨fun hc => hplain (by simp [Req.fresh, hc]), hplain, ?_, rfl⟩
  intro h
  simp [healthHandler, Res.jsonTo, Res.fresh, h, Res.status, Res.send]

/-- Witness for `health_ok`: the health route called, without conditional
headers, from an allowed Origin. -/
theorem health_ok_witness :
    (serve allowedOrigins quietExternals strayStore
        ⟨"GET", "/api/health", some "http://localhost:5173", "", none, none⟩).res.sent =
      [⟨200, Body.json [("status", "ok")]⟩] :=
  (health_ok allowedOrigins quietExternals strayStore
    ⟨"GET", "/api/health", some "http://localhost:5173", "", none, none⟩ rfl rfl
    (Or.inr (Or.inr ⟨"http://localhost:5173", by decide, rfl⟩)) rfl).1 rfl

/-- C9, refuted as stated: a preflight from an Origin outside the allow-list is
answered with a JSON body, not an empty one. -/
theorem preflight_counterexample :
    (serve allowedOrigins quietExternals emptyStore
        ⟨"OPTIONS", "/api/products", some "http://evil.example", "", none, none⟩).res.sent =
      [⟨403, Body.json [("error", "Not allowed by CORS")]⟩] ∧
    Body.json [("error", "Not allowed by CORS")] ≠ Body.empty := by
  decide

/-- C9, amended: an `OPTIONS` request on any path is answered at the CORS layer
by the origin decision, which depends on the Origin header alone; when allowed
the response is status 204 with an empty body, when rejected it is status 403
with the JSON body `error: "Not allowed by CORS"`; no router is reached. -/
theorem preflight_short_circuit (allowed : List String) (ext : Externals) (store : Store)
    (req : Req) (hm : req.method = "OPTIONS") :
    (originCallback allowed req.origin = Except.ok true →
      (serve allowed ext store req).res.sent = [⟨204, Body.empty⟩] ∧
      (serve allowed ext store req).reached = [Stage.corsGate]) ∧
    (originCallback allowed req.origin ≠ Except.ok true →
      originCallback allowed req.origin = Except.error ⟨some "Not allowed by CORS"⟩ ∧
      (serve allowed ext store req).res.sent =
        [⟨403, Body.json [("error", "Not allowed by CORS")]⟩] ∧
      (serve allowed ext store req).reached = [Stage.corsGate, Stage.errorHandler]) ∧
    (∀ other : Req, other.origin = req.origin →
      originCallback allowed other.origin = originCallback allowed req.origin ∧
      ((serve allowed ext store other).reached = [Stage.corsGate, Stage.errorHandler] ↔
        (serve allowed ext store req).reached = [Stage.corsGate, Stage.errorHandler])) ∧
    (∀ stage ∈ (serve allowed ext store req).reached, stage.isRouter = false) := by
  have hcases : originCallback allowed req.origin = Except.ok true ∨
      originCallback allowed req.origin = Except.error ⟨some "Not allowed by CORS"⟩ := by
    unfold originCallback
    split_ifs <;> simp
  have hallow : originCallback allowed req.origin = Except.ok true →
      serve allowed ext store req = ⟨(Res.fresh.status 204).endEmpty, [Stage.corsGate]⟩ := by
    intro h
    simp [serve, app, dispatch, corsMiddleware, h, hm]
  refine ⟨?_, ?_, ?_, ?_⟩
  · intro h
    rw [hallow h]
    exact ⟨rfl, rfl⟩
  · intro h
    rcases hcases with h1 | h1
    · exact absurd h1 h
    · rw [serve_rejected allowed ext store req _ h1]
      exact ⟨h1, rfl, rfl⟩
  · intro other h
    refine ⟨by rw [h], ?_⟩
    rcases hcases with h1 | h1
    · rw [hallow h1]
      have h2 : originCallback allowed other.origin = Except.ok true := by rw [h]; exact h1
      have hother := serve_allowed_reached allowed ext store other h2
      simp [hother]
    · rw [serve_rejected allowed ext store req _ h1,
        serve_rejected allowed ext store other _ (by rw [h]; exact h1)]
  · rcases hcases with h1 | h1
    · rw [hallow h1]
      simp [Stage.isRouter]
    · rw [serve_rejected allowed ext store req _ h1]
      simp [Stage.isRouter]

/-- Witness for `preflight_short_circuit`: a preflight from an allowed Origin
ends at the CORS layer with 204 and no body. -/
theorem preflight_short_circuit_witness :
    (serve allowedOrigins quietExternals emptyStore
        ⟨"OPTIONS", "/api/orders", some "http://localhost:5173", "", none, none⟩).res.sent =
      [⟨204, Body.empty⟩] :=
  ((preflight_short_circuit allowedOrigins quietExternals emptyStore
    ⟨"OPTIONS", "/api/orders", some "http://localhost:5173", "", none, none⟩ rfl).1 rfl).1

end Server
